import Mathlib

/-!
Verification of the knowledge-retrieval MCP server
(`src/mcp_knowledge_tools/server.py` and its near-duplicate
`src/build/lib/mcp_knowledge_tools/server.py`).

The development shallowly embeds the four core functions of the server —
`_build_headers`, `_format_documents`, `_format_payload`, `_query_dataset` —
over an explicit model of Python JSON values, and proves the specified
properties of the Response Normalizer and the Retrieval Client.
-/

/-- Model of the Python values produced by `json.loads` / `response.json()`:
`None`, `bool`, numbers, `str`, `list`, `dict`.  A number carries its
canonical Python textual representation (for example "0.9", "3", "0.0"),
since both `str()` and `json.dumps` render a parsed JSON number by exactly
that representation.  Object fields are kept in insertion order, as Python
dicts do; keys are unique (as after `json.loads`). -/
inductive Json where
  | null
  | bool (b : Bool)
  | num (repr : String)
  | str (s : String)
  | arr (elems : List Json)
  | obj (fields : List (String × Json))

/-- Test for the Python `None` value (`x is None`). -/
def Json.isNull : Json → Bool
  | Json.null => true
  | _ => false

/-- Test for `isinstance(x, list)`. -/
def Json.isArr : Json → Bool
  | Json.arr _ => true
  | _ => false

/-- Characters stripped by Python `str.strip()`: the Unicode whitespace set
(`str.isspace`), i.e. the ASCII whitespace characters, the separator control
characters U+001C-U+001F, U+0085, U+00A0, and the Unicode space characters
U+1680, U+2000-U+200A, U+2028, U+2029, U+202F, U+205F, U+3000. -/
def pyIsSpace (c : Char) : Bool :=
  c = ' ' || c = '\t' || c = '\n' || c = '\r' || c = '\x0b' || c = '\x0c'
    || c = '\x1c' || c = '\x1d' || c = '\x1e' || c = '\x1f'
    || c = '\x85' || c = '\xa0' || c = '\u1680'
    || c = '\u2000' || c = '\u2001' || c = '\u2002' || c = '\u2003'
    || c = '\u2004' || c = '\u2005' || c = '\u2006' || c = '\u2007'
    || c = '\u2008' || c = '\u2009' || c = '\u200a'
    || c = '\u2028' || c = '\u2029' || c = '\u202f' || c = '\u205f'
    || c = '\u3000'

/-- Python `str.strip()`: remove leading and trailing whitespace. -/
def pyStrip (s : String) : String :=
  String.mk (((s.data.dropWhile pyIsSpace).reverse.dropWhile pyIsSpace).reverse)

/-- Python `sep.join(parts)`. -/
def pyJoin (sep : String) : List String → String
  | [] => ""
  | [x] => x
  | x :: y :: xs => x ++ sep ++ pyJoin sep (y :: xs)

/-- Concatenation of a list of strings (used to build escaped string
renderings character by character). -/
def strConcat : List String → String
  | [] => ""
  | x :: xs => x ++ strConcat xs

/-- Python `dict.get(key)` on a JSON object: `some v` when the key is
present, `none` when absent. -/
def pyDictGet (d : List (String × Json)) (k : String) : Option Json :=
  match d.find? (fun kv => kv.1 == k) with
  | some kv => some kv.2
  | none => none

/-- Python `dict.get(key)` as a Python value: a missing key yields `None`. -/
def pyGetOrNull (d : List (String × Json)) (k : String) : Json :=
  (pyDictGet d k).getD Json.null

/-- Canonical textual representations of Python numeric zero (`0`, `0.0`,
`-0.0`): exactly the numbers that are falsy. -/
def pyZeroRepr (s : String) : Bool :=
  s = "0" || s = "-0" || s = "0.0" || s = "-0.0"

/-- Python truthiness of a JSON-derived value (`bool(x)`). -/
def pyTruthy : Json → Bool
  | Json.null => false
  | Json.bool b => b
  | Json.num s => !(pyZeroRepr s)
  | Json.str s => !(s.isEmpty)
  | Json.arr l => !(l.isEmpty)
  | Json.obj d => !(d.isEmpty)

/-- Python `a or b`: `a` when truthy, else `b`. -/
def pyOr (a b : Json) : Json :=
  if pyTruthy a then a else b

/-- Lower-case hexadecimal digit for `n < 16`. -/
def hexDigit (n : Nat) : Char :=
  if n < 10 then Char.ofNat (48 + n) else Char.ofNat (87 + n)

/-- Escaping of one character inside a Python `repr` of a string, where `q`
is the chosen quote character. -/
def pyReprEscChar (q : Char) (c : Char) : String :=
  if c = '\\' then "\\\\"
  else if c = q then "\\" ++ String.mk [q]
  else if c = '\n' then "\\n"
  else if c = '\r' then "\\r"
  else if c = '\t' then "\\t"
  else if c.toNat < 32 || c.toNat == 127 then
    "\\x" ++ String.mk [hexDigit (c.toNat / 16), hexDigit (c.toNat % 16)]
  else String.mk [c]

/-- Python `repr` of a string: single-quoted unless the string contains a
single quote and no double quote. -/
def pyReprStr (s : String) : String :=
  let q := if s.data.contains (Char.ofNat 39) && !(s.data.contains '"') then '"' else Char.ofNat 39
  String.mk [q] ++ strConcat (s.data.map (pyReprEscChar q)) ++ String.mk [q]

mutual

/-- Python `repr` of a JSON-derived value. -/
def pyRepr : Json → String
  | Json.null => "None"
  | Json.bool true => "True"
  | Json.bool false => "False"
  | Json.num s => s
  | Json.str s => pyReprStr s
  | Json.arr l => "[" ++ pyJoin ", " (pyReprList l) ++ "]"
  | Json.obj d => "\x7b" ++ pyJoin ", " (pyReprObj d) ++ "\x7d"

/-- Python `repr` of the elements of a list. -/
def pyReprList : List Json → List String
  | [] => []
  | x :: xs => pyRepr x :: pyReprList xs

/-- Python `repr` of the entries of a dict. -/
def pyReprObj : List (String × Json) → List String
  | [] => []
  | (k, v) :: xs => (pyReprStr k ++ ": " ++ pyRepr v) :: pyReprObj xs

end

/-- Python `str(x)` for a JSON-derived value (what an f-string interpolates):
identical to `repr(x)` except on strings, which are rendered unquoted. -/
def pyStr : Json → String
  | Json.str s => s
  | v => pyRepr v

/-- Escaping of one character by `json.dumps(..., ensure_ascii=False)`. -/
def jsonEscapeChar (c : Char) : String :=
  if c = '"' then "\\\""
  else if c = '\\' then "\\\\"
  else if c = '\n' then "\\n"
  else if c = '\t' then "\\t"
  else if c = '\r' then "\\r"
  else if c = '\x08' then "\\b"
  else if c = '\x0c' then "\\f"
  else if c.toNat < 32 then
    "\\u00" ++ String.mk [hexDigit (c.toNat / 16), hexDigit (c.toNat % 16)]
  else String.mk [c]

/-- JSON string literal as produced by `json.dumps(..., ensure_ascii=False)`. -/
def jsonQuote (s : String) : String :=
  "\"" ++ strConcat (s.data.map jsonEscapeChar) ++ "\""

mutual

/-- Compact `json.dumps(v, ensure_ascii=False)` (default separators
`", "` and `": "`). -/
def jsonDumps : Json → String
  | Json.null => "null"
  | Json.bool true => "true"
  | Json.bool false => "false"
  | Json.num s => s
  | Json.str s => jsonQuote s
  | Json.arr l => "[" ++ pyJoin ", " (jsonDumpsList l) ++ "]"
  | Json.obj d => "\x7b" ++ pyJoin ", " (jsonDumpsObj d) ++ "\x7d"

/-- Compact renderings of the elements of a JSON array. -/
def jsonDumpsList : List Json → List String
  | [] => []
  | x :: xs => jsonDumps x :: jsonDumpsList xs

/-- Compact renderings of the entries of a JSON object. -/
def jsonDumpsObj : List (String × Json) → List String
  | [] => []
  | (k, v) :: xs => (jsonQuote k ++ ": " ++ jsonDumps v) :: jsonDumpsObj xs

end

/-- A run of `n` spaces. -/
def pad (n : Nat) : String :=
  String.mk (List.replicate n ' ')

mutual

/-- Indented `json.dumps(v, ensure_ascii=False, indent=2)` at nesting level
`lvl` (item separator `","` + newline, key separator `": "`). -/
def jsonDumpsIndent (lvl : Nat) : Json → String
  | Json.null => "null"
  | Json.bool true => "true"
  | Json.bool false => "false"
  | Json.num s => s
  | Json.str s => jsonQuote s
  | Json.arr [] => "[]"
  | Json.arr (x :: xs) =>
      "[\n" ++ pyJoin ",\n" (jsonDumpsIndentList (lvl + 1) (x :: xs)) ++
        "\n" ++ pad (2 * lvl) ++ "]"
  | Json.obj [] => "\x7b\x7d"
  | Json.obj (kv :: kvs) =>
      "\x7b\n" ++ pyJoin ",\n" (jsonDumpsIndentObj (lvl + 1) (kv :: kvs)) ++
        "\n" ++ pad (2 * lvl) ++ "\x7d"

/-- Indented renderings of the elements of a JSON array. -/
def jsonDumpsIndentList (lvl : Nat) : List Json → List String
  | [] => []
  | x :: xs => (pad (2 * lvl) ++ jsonDumpsIndent lvl x) :: jsonDumpsIndentList lvl xs

/-- Indented renderings of the entries of a JSON object. -/
def jsonDumpsIndentObj (lvl : Nat) : List (String × Json) → List String
  | [] => []
  | (k, v) :: xs =>
      (pad (2 * lvl) ++ jsonQuote k ++ ": " ++ jsonDumpsIndent lvl v) ::
        jsonDumpsIndentObj lvl xs

end

/-- Model of an upstream HTTP response as seen by `_query_dataset` after
`response.json()`: a status code and the parsed JSON object body. -/
structure HttpResponse where
  status : Nat
  body : List (String × Json)

/-- Observable effects of one `_query_dataset` call, in order: an HTTP POST
to a URL with the JSON body `\x7b"query": query\x7d`, and an invocation of the
Response Normalizer (`_format_payload`) on a parsed payload. -/
inductive Effect where
  | httpPost (url : String) (query : String)
  | normalizePayload (payload : List (String × Json))

/-- Exceptions `_query_dataset` can raise: `ValueError` for an empty query,
`RuntimeError` from `_build_headers`, and `httpx.HTTPStatusError` from
`response.raise_for_status()` (carrying the upstream status). -/
inductive QueryError where
  | valueError (msg : String)
  | runtimeError (msg : String)
  | httpStatusError (status : Nat)

namespace Server

/-- Default dataset token from `src/mcp_knowledge_tools/server.py`. -/
def _DEFAULT_DATASET_TOKEN : String :=
  "dataset-gCRaKZgnKtvqLdeuoCFjKiME"

/-- Embedding of `_build_headers` (`src/mcp_knowledge_tools/server.py`,
lines 23-34).  `env_token` models `os.getenv(_DATASET_TOKEN_ENV)`: `none`
when the environment variable is unset.  `Except.error` models the raised
`RuntimeError`. -/
def _build_headers (env_token : Option String) :
    Except String (List (String × String)) :=
  let token := env_token.getD _DEFAULT_DATASET_TOKEN
  if token = "" then
    Except.error
      "A dataset token is required. Set the DIFY_DATASET_TOKEN environment variable."
  else
    Except.ok
      [("Authorization", "Bearer " ++ token),
       ("Content-Type", "application/json")]

/-- Display value of a dict result item:
`item.get("content") or item.get("answer") or item.get("text")`
(`src/mcp_knowledge_tools/server.py`, line 43). -/
def _display_content (d : List (String × Json)) : Json :=
  pyOr (pyGetOrNull d "content") (pyOr (pyGetOrNull d "answer") (pyGetOrNull d "text"))

/-- First line of a dict item's section:
`f"\x7bindex\x7d. \x7bcontent\x7d" if content else f"\x7bindex\x7d. (no content)"`
(`src/mcp_knowledge_tools/server.py`, line 46). -/
def _content_line (index : Nat) (d : List (String × Json)) : String :=
  if pyTruthy (_display_content d) then
    toString index ++ ". " ++ pyStr (_display_content d)
  else
    toString index ++ ". (no content)"

/-- The `section_lines` list built for a dict item
(`src/mcp_knowledge_tools/server.py`, lines 42-51): the content line, then a
`score:` line when `item.get("score")` is not `None`, then a `metadata:`
line when `item.get("metadata") or \x7b\x7d` is truthy. -/
def _section_lines (index : Nat) (d : List (String × Json)) : List String :=
  let metadata := pyOr (pyGetOrNull d "metadata") (Json.obj [])
  let score := pyGetOrNull d "score"
  let lines := [_content_line index d]
  let lines := if !(score.isNull) then lines ++ ["   score: " ++ pyStr score] else lines
  let lines := if pyTruthy metadata then lines ++ ["   metadata: " ++ jsonDumps metadata] else lines
  lines

/-- One element of `parts` in `_format_documents`
(`src/mcp_knowledge_tools/server.py`, lines 41-55): a dict item becomes its
section lines joined by newlines, any other item becomes
`f"\x7bindex\x7d. \x7bitem\x7d"`. -/
def _format_document (index : Nat) (item : Json) : String :=
  match item with
  | Json.obj d => pyJoin "\n" (_section_lines index d)
  | item => toString index ++ ". " ++ pyStr item

/-- The `parts` list of `_format_documents`: one rendered section per item,
with indices counted from `index` (the source enumerates from 1). -/
def _format_documents_parts (index : Nat) : List Json → List String
  | [] => []
  | x :: xs => _format_document index x :: _format_documents_parts (index + 1) xs

/-- Embedding of `_format_documents` (`src/mcp_knowledge_tools/server.py`,
lines 37-57): render each item as a numbered section, join with blank
lines. -/
def _format_documents (items : List Json) : String :=
  pyJoin "\n\n" (_format_documents_parts 1 items)

/-- The key loop of `_format_payload` (`src/mcp_knowledge_tools/server.py`,
lines 63-73), one recursive step per key of
`("items", "data", "documents", "results")`: a key whose value is a list
returns the no-match message when the list is empty, otherwise returns the
formatted documents when their rendering has non-whitespace content; in
every other case the loop continues, falling back to
`json.dumps(payload, ensure_ascii=False, indent=2)` after the last key. -/
def _format_payload_go (payload : List (String × Json)) : List String → String
  | [] => jsonDumpsIndent 0 (Json.obj payload)
  | k :: ks =>
    match pyDictGet payload k with
    | some (Json.arr items) =>
        if items.isEmpty then "No matching documents were found."
        else
          let formatted := _format_documents items
          if !((pyStrip formatted).isEmpty) then formatted
          else _format_payload_go payload ks
    | _ => _format_payload_go payload ks

/-- Embedding of `_format_payload` (`src/mcp_knowledge_tools/server.py`,
lines 60-73). -/
def _format_payload (payload : List (String × Json)) : String :=
  _format_payload_go payload ["items", "data", "documents", "results"]

/-- The request URL `_DATASET_URL_TEMPLATE.format(data_id=data_id)`
(`src/mcp_knowledge_tools/server.py`, lines 14 and 82). -/
def _DATASET_URL (data_id : String) : String :=
  "https://api.dify.ai/v1/datasets/" ++ data_id ++ "/retrieve"

/-- Embedding of `_query_dataset` (`src/mcp_knowledge_tools/server.py`,
lines 76-87).  `env_token` models the environment, `net` models the
upstream service (the response obtained by POSTing to a URL).  The result
pairs the returned string or raised exception with the ordered list of
observable effects: `response.raise_for_status()` raises on a 4xx/5xx
status, in which case the payload is never parsed and `_format_payload` is
never invoked; no retry exists. -/
def _query_dataset (query : String) (data_id : String) (env_token : Option String)
    (net : String → HttpResponse) : Except QueryError String × List Effect :=
  if query.isEmpty || (pyStrip query).isEmpty then
    (Except.error (QueryError.valueError "Query text must not be empty."), [])
  else
    let url := _DATASET_URL data_id
    match _build_headers env_token with
    | Except.error msg => (Except.error (QueryError.runtimeError msg), [])
    | Except.ok _headers =>
        let response := net url
        if 400 ≤ response.status ∧ response.status ≤ 599 then
          (Except.error (QueryError.httpStatusError response.status),
           [Effect.httpPost url query])
        else
          (Except.ok (_format_payload response.body),
           [Effect.httpPost url query, Effect.normalizePayload response.body])

end Server

namespace BuildLibServer

/-- Default dataset token from `src/build/lib/mcp_knowledge_tools/server.py`. -/
def _DEFAULT_DATASET_TOKEN : String :=
  "dataset-gCRaKZgnKtvqLdeuoCFjKiME"

/-- Embedding of `_build_headers` from the network-transport variant
(`src/build/lib/mcp_knowledge_tools/server.py`, lines 35-44). -/
def _build_headers (env_token : Option String) :
    Except String (List (String × String)) :=
  let token := env_token.getD _DEFAULT_DATASET_TOKEN
  if token = "" then
    Except.error
      "A dataset token is required. Set the DIFY_DATASET_TOKEN environment variable."
  else
    Except.ok
      [("Authorization", "Bearer " ++ token),
       ("Content-Type", "application/json")]

/-- Display value of a dict result item
(`src/build/lib/mcp_knowledge_tools/server.py`, line 51). -/
def _display_content (d : List (String × Json)) : Json :=
  pyOr (pyGetOrNull d "content") (pyOr (pyGetOrNull d "answer") (pyGetOrNull d "text"))

/-- First line of a dict item's section
(`src/build/lib/mcp_knowledge_tools/server.py`, line 54). -/
def _content_line (index : Nat) (d : List (String × Json)) : String :=
  if pyTruthy (_display_content d) then
    toString index ++ ". " ++ pyStr (_display_content d)
  else
    toString index ++ ". (no content)"

/-- The `section_lines` list built for a dict item
(`src/build/lib/mcp_knowledge_tools/server.py`, lines 50-58). -/
def _section_lines (index : Nat) (d : List (String × Json)) : List String :=
  let metadata := pyOr (pyGetOrNull d "metadata") (Json.obj [])
  let score := pyGetOrNull d "score"
  let lines := [_content_line index d]
  let lines := if !(score.isNull) then lines ++ ["   score: " ++ pyStr score] else lines
  let lines := if pyTruthy metadata then lines ++ ["   metadata: " ++ jsonDumps metadata] else lines
  lines

/-- One element of `parts` in the variant's `_format_documents`
(`src/build/lib/mcp_knowledge_tools/server.py`, lines 49-61). -/
def _format_document (index : Nat) (item : Json) : String :=
  match item with
  | Json.obj d => pyJoin "\n" (_section_lines index d)
  | item => toString index ++ ". " ++ pyStr item

/-- The `parts` list of the variant's `_format_documents`. -/
def _format_documents_parts (index : Nat) : List Json → List String
  | [] => []
  | x :: xs => _format_document index x :: _format_documents_parts (index + 1) xs

/-- Embedding of `_format_documents`
(`src/build/lib/mcp_knowledge_tools/server.py`, lines 47-62). -/
def _format_documents (items : List Json) : String :=
  pyJoin "\n\n" (_format_documents_parts 1 items)

/-- The key loop of the variant's `_format_payload`
(`src/build/lib/mcp_knowledge_tools/server.py`, lines 66-74). -/
def _format_payload_go (payload : List (String × Json)) : List String → String
  | [] => jsonDumpsIndent 0 (Json.obj payload)
  | k :: ks =>
    match pyDictGet payload k with
    | some (Json.arr items) =>
        if items.isEmpty then "No matching documents were found."
        else
          let formatted := _format_documents items
          if !((pyStrip formatted).isEmpty) then formatted
          else _format_payload_go payload ks
    | _ => _format_payload_go payload ks

/-- Embedding of `_format_payload`
(`src/build/lib/mcp_knowledge_tools/server.py`, lines 65-74). -/
def _format_payload (payload : List (String × Json)) : String :=
  _format_payload_go payload ["items", "data", "documents", "results"]

/-- The request URL built from the variant's `_DATASET_URL_TEMPLATE`
(`src/build/lib/mcp_knowledge_tools/server.py`, lines 24 and 80). -/
def _DATASET_URL (data_id : String) : String :=
  "https://api.dify.ai/v1/datasets/" ++ data_id ++ "/retrieve"

/-- Embedding of `_query_dataset`
(`src/build/lib/mcp_knowledge_tools/server.py`, lines 77-85). -/
def _query_dataset (query : String) (data_id : String) (env_token : Option String)
    (net : String → HttpResponse) : Except QueryError String × List Effect :=
  if query.isEmpty || (pyStrip query).isEmpty then
    (Except.error (QueryError.valueError "Query text must not be empty."), [])
  else
    let url := _DATASET_URL data_id
    match _build_headers env_token with
    | Except.error msg => (Except.error (QueryError.runtimeError msg), [])
    | Except.ok _headers =>
        let response := net url
        if 400 ≤ response.status ∧ response.status ≤ 599 then
          (Except.error (QueryError.httpStatusError response.status),
           [Effect.httpPost url query])
        else
          (Except.ok (_format_payload response.body),
           [Effect.httpPost url query, Effect.normalizePayload response.body])

end BuildLibServer

/-- Specification-side selector: the value of the first key in `ks` whose
value in `payload` is a list (non-list values of earlier keys are skipped),
or `none` when no key holds a list. -/
def firstListGo (payload : List (String × Json)) : List String → Option (List Json)
  | [] => none
  | k :: ks =>
    match pyDictGet payload k with
    | some (Json.arr l) => some l
    | _ => firstListGo payload ks

/-- Specification-side selector for the Normalizer's priority order: the
list held by the first of `items`, `data`, `documents`, `results` whose
value is a list. -/
def selectedList (payload : List (String × Json)) : Option (List Json) :=
  firstListGo payload ["items", "data", "documents", "results"]

/-- A string is empty exactly when its character list is. -/
lemma str_eq_empty_iff (s : String) : s = "" ↔ s.data = [] := by
  rw [String.ext_iff]

/-- Appending to a string with a non-empty character list never yields the
empty string. -/
lemma append_ne_empty_left (a b : String) (h : a.data ≠ []) : a ++ b ≠ "" := by
  intro he
  rw [str_eq_empty_iff, String.data_append, List.append_eq_nil] at he
  exact h he.1

/-- Two strings differ when some position below the length of the left
operand of an append distinguishes them. -/
lemma ne_append_of_get (a b t : String) (n : Nat) (hn : n < b.data.length)
    (hne : a.data[n]? ≠ b.data[n]?) : a ≠ b ++ t := by
  intro h
  apply hne
  rw [h, String.data_append, List.getElem?_append_left hn]

/-- Joining a non-empty list of strings yields its head followed by some
remainder. -/
lemma pyJoin_cons (sep x : String) (xs : List String) :
    ∃ u, pyJoin sep (x :: xs) = x ++ u := by
  cases xs with
  | nil => exact ⟨"", (String.append_empty x).symm⟩
  | cons y ys =>
      refine ⟨sep ++ pyJoin sep (y :: ys), ?_⟩
      rw [pyJoin, String.append_assoc]

/-- When every character surviving `dropWhile p` satisfies `p`, every
character of the original list does. -/
lemma dropWhile_forall {p : Char → Bool} :
    ∀ {l : List Char}, (∀ x ∈ List.dropWhile p l, p x = true) → ∀ x ∈ l, p x = true := by
  intro l
  induction l with
  | nil => intro _ x hx; cases hx
  | cons a l ih =>
      intro h x hx
      by_cases ha : p a = true
      · rw [List.dropWhile_cons_of_pos ha] at h
        rcases List.mem_cons.mp hx with rfl | hx2
        · exact ha
        · exact ih h x hx2
      · rw [List.dropWhile_cons_of_neg ha] at h
        exact h x hx

/-- A string whose `strip()` is empty consists of whitespace only. -/
lemma pyStrip_eq_empty {s : String} (h : pyStrip s = "") :
    ∀ c ∈ s.data, pyIsSpace c = true := by
  unfold pyStrip at h
  have h1 : ((s.data.dropWhile pyIsSpace).reverse.dropWhile pyIsSpace).reverse = ([] : List Char) :=
    congrArg String.data h
  rw [List.reverse_eq_nil_iff, List.dropWhile_eq_nil_iff] at h1
  replace h := h1
  have h2 : ∀ c ∈ List.dropWhile pyIsSpace s.data, pyIsSpace c = true := by
    intro c hc
    exact h c (List.mem_reverse.mpr hc)
  exact dropWhile_forall h2

/-- A string containing a non-whitespace character has a non-empty
`strip()`. -/
lemma pyStrip_ne_empty {s : String} {c : Char} (hc : c ∈ s.data)
    (hns : pyIsSpace c = false) : pyStrip s ≠ "" := by
  intro h
  rw [pyStrip_eq_empty h c hc] at hns
  cases hns

/-- The content line of a dict item always starts with its index followed by
a dot and a space. -/
lemma content_line_starts (index : Nat) (d : List (String × Json)) :
    ∃ t, Server._content_line index d = (toString index ++ ". ") ++ t := by
  unfold Server._content_line
  split
  · exact ⟨pyStr (Server._display_content d), rfl⟩
  · refine ⟨"(no content)", ?_⟩
    rw [String.append_assoc]
    have h1 : ". " ++ "(no content)" = ". (no content)" := by decide
    rw [h1]

/-- The section lines of a dict item start with its content line. -/
lemma section_lines_cons (index : Nat) (d : List (String × Json)) :
    ∃ rest, Server._section_lines index d = Server._content_line index d :: rest := by
  unfold Server._section_lines
  dsimp only
  split <;> split <;>
    (try simp only [List.singleton_append, List.cons_append]) <;> exact ⟨_, rfl⟩

/-- Every rendered document section starts with its index followed by a dot
and a space. -/
lemma format_document_starts (index : Nat) (item : Json) :
    ∃ t, Server._format_document index item = (toString index ++ ". ") ++ t := by
  cases item with
  | obj d =>
      obtain ⟨rest, hrest⟩ := section_lines_cons index d
      obtain ⟨u, hu⟩ := pyJoin_cons "\n" (Server._content_line index d) rest
      obtain ⟨t, ht⟩ := content_line_starts index d
      refine ⟨t ++ u, ?_⟩
      show pyJoin "\n" (Server._section_lines index d) = _
      rw [hrest, hu, ht, String.append_assoc]
  | null => exact ⟨pyStr Json.null, rfl⟩
  | bool b => exact ⟨pyStr (Json.bool b), rfl⟩
  | num s => exact ⟨pyStr (Json.num s), rfl⟩
  | str s => exact ⟨pyStr (Json.str s), rfl⟩
  | arr l => exact ⟨pyStr (Json.arr l), rfl⟩

/-- The parts list has exactly one element per input item. -/
lemma format_documents_parts_length (i : Nat) (items : List Json) :
    (Server._format_documents_parts i items).length = items.length := by
  induction items generalizing i with
  | nil => rfl
  | cons x xs ih => simp [Server._format_documents_parts, ih]

/-- The j-th part is numbered `i + j` when enumeration starts at `i`. -/
lemma format_documents_parts_get (items : List Json) :
    ∀ (i j : Nat) (hj : j < (Server._format_documents_parts i items).length),
      ∃ t, (Server._format_documents_parts i items).get ⟨j, hj⟩
            = (toString (i + j) ++ ". ") ++ t := by
  induction items with
  | nil => intro i j hj; simp [Server._format_documents_parts] at hj
  | cons x xs ih =>
      intro i j hj
      cases j with
      | zero =>
          rw [Nat.add_zero]
          exact format_document_starts i x
      | succ j =>
          have hj2 : j < (Server._format_documents_parts (i + 1) xs).length := by
            have := hj
            simp only [Server._format_documents_parts, List.length_cons] at this
            omega
          have h2 := ih (i + 1) j hj2
          rw [show i + (j + 1) = (i + 1) + j by omega]
          simpa only [Server._format_documents_parts, List.get_cons_succ] using h2

/-- The formatted text of a non-empty item list starts with "1. ". -/
lemma format_documents_starts (items : List Json) (h : items ≠ []) :
    ∃ t, Server._format_documents items = "1. " ++ t := by
  cases items with
  | nil => cases h rfl
  | cons x xs =>
      obtain ⟨u, hu⟩ :=
        pyJoin_cons "\n\n" (Server._format_document 1 x) (Server._format_documents_parts 2 xs)
      obtain ⟨t, ht⟩ := format_document_starts 1 x
      refine ⟨t ++ u, ?_⟩
      show pyJoin "\n\n" (Server._format_documents_parts 1 (x :: xs)) = _
      rw [Server._format_documents_parts, hu, ht, String.append_assoc]
      have h1 : toString (1 : Nat) ++ ". " = "1. " := by decide
      rw [h1]

/-- The formatted text of a non-empty item list never strips to the empty
string (it contains the dot of "1. "). -/
lemma format_documents_strip_ne (items : List Json) (h : items ≠ []) :
    pyStrip (Server._format_documents items) ≠ "" := by
  obtain ⟨t, ht⟩ := format_documents_starts items h
  refine pyStrip_ne_empty (c := '.') ?_ (by decide)
  rw [ht, String.data_append]
  apply List.mem_append_left
  decide

/-- Characterization of the key loop of `_format_payload`: its result is
fully determined by the first key whose value is a list. -/
lemma format_payload_go_eq (ks : List String) (payload : List (String × Json)) :
    Server._format_payload_go payload ks =
      match firstListGo payload ks with
      | none => jsonDumpsIndent 0 (Json.obj payload)
      | some items =>
          if items.isEmpty then "No matching documents were found."
          else Server._format_documents items := by
  induction ks with
  | nil => rfl
  | cons k ks ih =>
      simp only [Server._format_payload_go, firstListGo]
      cases hk : pyDictGet payload k with
      | none => simp only [hk]; exact ih
      | some v =>
          cases v with
          | arr l =>
              cases l with
              | nil => simp [hk]
              | cons a as =>
                  have hne : (pyStrip (Server._format_documents (a :: as))).isEmpty = false := by
                    rw [Bool.eq_false_iff]
                    intro hh
                    exact format_documents_strip_ne (a :: as) (List.cons_ne_nil a as)
                      ((String.isEmpty_iff _).mp hh)
                  simp [hk, hne]
          | null => simp only [hk]; exact ih
          | bool b => simp only [hk]; exact ih
          | num s => simp only [hk]; exact ih
          | str s => simp only [hk]; exact ih
          | obj d => simp only [hk]; exact ih

/-- Characterization of `_format_payload` through the specification-side
selector `selectedList`. -/
lemma format_payload_eq (payload : List (String × Json)) :
    Server._format_payload payload =
      match selectedList payload with
      | none => jsonDumpsIndent 0 (Json.obj payload)
      | some items =>
          if items.isEmpty then "No matching documents were found."
          else Server._format_documents items :=
  format_payload_go_eq ["items", "data", "documents", "results"] payload

/-- When no inspected key holds a list, the selector finds nothing. -/
lemma firstListGo_eq_none (payload : List (String × Json)) (ks : List String)
    (h : ∀ k ∈ ks, Option.all (fun v => !(Json.isArr v)) (pyDictGet payload k) = true) :
    firstListGo payload ks = none := by
  induction ks with
  | nil => rfl
  | cons k ks ih =>
      have hk := h k (List.mem_cons_self k ks)
      have hrest : ∀ k2 ∈ ks, Option.all (fun v => !(Json.isArr v)) (pyDictGet payload k2) = true :=
        fun k2 hk2 => h k2 (List.mem_cons_of_mem k hk2)
      simp only [firstListGo]
      cases hg : pyDictGet payload k with
      | none => exact ih hrest
      | some v =>
          rw [hg] at hk
          cases v with
          | arr l => simp [Json.isArr] at hk
          | null => exact ih hrest
          | bool b => exact ih hrest
          | num s => exact ih hrest
          | str s => exact ih hrest
          | obj d => exact ih hrest

/-- C1: for every JSON object payload, the Response Normalizer selects as
the result list the value of the first field among `items`, `data`,
`documents`, `results` (in that fixed priority order) whose value is a
sequence — fields of earlier priority that are present but are not
sequences are skipped by the selector — and once such a field is found the
output is fully determined by its list (the no-match message when it is
empty, the formatted documents otherwise), so fields of later priority
never influence the output. -/
theorem claim_c1 (payload : List (String × Json)) (items : List Json)
    (h : selectedList payload = some items) :
    Server._format_payload payload =
      (if items.isEmpty then "No matching documents were found."
       else Server._format_documents items) := by
  rw [format_payload_eq, h]

/-- Witness for C1: `items` is present but not a sequence and is skipped,
`data` holds the selected list, and the empty list under `results` is
ignored. -/
theorem claim_c1_witness :
    selectedList
        [("items", Json.str "x"), ("data", Json.arr [Json.str "doc"]),
         ("results", Json.arr [])] = some [Json.str "doc"]
    ∧ Server._format_payload
        [("items", Json.str "x"), ("data", Json.arr [Json.str "doc"]),
         ("results", Json.arr [])]
      = (if ([Json.str "doc"] : List Json).isEmpty then "No matching documents were found."
         else Server._format_documents [Json.str "doc"]) :=
  ⟨rfl, claim_c1 _ _ rfl⟩

/-- C2: normalizing the round-trip payload yields exactly one block made of
the line "1. Use 5S", then the (indented) "score: 0.9" line, then the
(indented) "metadata: ..." line with the metadata as compact JSON. -/
theorem claim_c2 :
    Server._format_payload
        [("results", Json.arr
          [Json.obj [("content", Json.str "Use 5S"), ("score", Json.num "0.9"),
                     ("metadata", Json.obj [("tag", Json.str "lean")])]])]
      = "1. Use 5S\n   score: 0.9\n   metadata: \x7b\"tag\": \"lean\"\x7d"
    ∧ Server._format_payload
        [("results", Json.arr
          [Json.obj [("content", Json.str "Use 5S"), ("score", Json.num "0.9"),
                     ("metadata", Json.obj [("tag", Json.str "lean")])]])]
      = pyJoin "\n" ["1. Use 5S", "   score: 0.9", "   metadata: \x7b\"tag\": \"lean\"\x7d"] :=
  ⟨by decide, by decide⟩

/-- C3: whenever the first priority field holding a sequence holds the
empty sequence, the Normalizer returns exactly the no-match message,
whatever the lower-priority fields hold. -/
theorem claim_c3 (payload : List (String × Json))
    (h : selectedList payload = some []) :
    Server._format_payload payload = "No matching documents were found." := by
  rw [format_payload_eq, h]
  rfl

/-- Witness for C3: the empty list under `data` wins although `results`
holds a non-empty list. -/
theorem claim_c3_witness :
    selectedList [("data", Json.arr []), ("results", Json.arr [Json.str "x"])] = some []
    ∧ Server._format_payload [("data", Json.arr []), ("results", Json.arr [Json.str "x"])]
        = "No matching documents were found." :=
  ⟨rfl, claim_c3 _ rfl⟩

/-- C4: for every non-empty selected list, the Normalizer's output is the
blank-line join of exactly one block per element, and block `j` (0-based)
begins with the 1-based number `j + 1` followed by ". ". -/
theorem claim_c4 (payload : List (String × Json)) (items : List Json)
    (h : selectedList payload = some items) (hne : items ≠ []) :
    Server._format_payload payload = pyJoin "\n\n" (Server._format_documents_parts 1 items)
    ∧ (Server._format_documents_parts 1 items).length = items.length
    ∧ ∀ (j : Nat) (hj : j < (Server._format_documents_parts 1 items).length),
        ∃ t, (Server._format_documents_parts 1 items).get ⟨j, hj⟩
              = (toString (j + 1) ++ ". ") ++ t := by
  refine ⟨?_, format_documents_parts_length 1 items, ?_⟩
  · rw [format_payload_eq, h]
    have hemp : items.isEmpty = false := by
      cases items with
      | nil => cases hne rfl
      | cons a l => rfl
    simp only [hemp, Bool.false_eq_true, if_false]
    rfl
  · intro j hj
    have h2 := format_documents_parts_get items 1 j hj
    rw [Nat.add_comm 1 j] at h2
    exact h2

/-- Witness for C4 on a two-element list under `documents`. -/
theorem claim_c4_witness :
    selectedList [("documents", Json.arr [Json.str "a", Json.obj []])]
        = some [Json.str "a", Json.obj []]
    ∧ ([Json.str "a", Json.obj []] : List Json) ≠ []
    ∧ (Server._format_payload [("documents", Json.arr [Json.str "a", Json.obj []])]
        = pyJoin "\n\n" (Server._format_documents_parts 1 [Json.str "a", Json.obj []])
      ∧ (Server._format_documents_parts 1 [Json.str "a", Json.obj []]).length
          = ([Json.str "a", Json.obj []] : List Json).length
      ∧ ∀ (j : Nat)
          (hj : j < (Server._format_documents_parts 1 [Json.str "a", Json.obj []]).length),
          ∃ t, (Server._format_documents_parts 1 [Json.str "a", Json.obj []]).get ⟨j, hj⟩
                = (toString (j + 1) ++ ". ") ++ t) :=
  ⟨rfl, List.cons_ne_nil _ _,
    claim_c4 [("documents", Json.arr [Json.str "a", Json.obj []])]
      [Json.str "a", Json.obj []] rfl (List.cons_ne_nil _ _)⟩

/-- C5: when none of the four priority fields holds a sequence, the
Normalizer returns the indented pretty-printed JSON of the whole payload,
which is never the empty string. -/
theorem claim_c5 (payload : List (String × Json))
    (h : ∀ k ∈ ["items", "data", "documents", "results"],
        Option.all (fun v => !(Json.isArr v)) (pyDictGet payload k) = true) :
    Server._format_payload payload = jsonDumpsIndent 0 (Json.obj payload)
    ∧ Server._format_payload payload ≠ "" := by
  have hn : selectedList payload = none := firstListGo_eq_none payload _ h
  have he : Server._format_payload payload = jsonDumpsIndent 0 (Json.obj payload) := by
    rw [format_payload_eq, hn]
  refine ⟨he, ?_⟩
  rw [he]
  cases payload with
  | nil => decide
  | cons kv kvs =>
      simp only [jsonDumpsIndent]
      rw [Ne, str_eq_empty_iff]
      simp only [String.data_append, List.append_eq_nil]
      intro hnil
      exact absurd hnil.1.1.1.1 (by decide)

/-- Witness for C5 on the payload with a single non-list field. -/
theorem claim_c5_witness :
    (∀ k ∈ ["items", "data", "documents", "results"],
        Option.all (fun v => !(Json.isArr v)) (pyDictGet [("status", Json.str "ok")] k) = true)
    ∧ (Server._format_payload [("status", Json.str "ok")]
        = jsonDumpsIndent 0 (Json.obj [("status", Json.str "ok")])
      ∧ Server._format_payload [("status", Json.str "ok")] ≠ "") :=
  ⟨by decide, claim_c5 _ (by decide)⟩

/-- Counterexample for C6 as stated: the mapping contains a `score` field
(holding JSON null), yet the rendered block consists of the single content
line and carries no `score:` line. -/
theorem claim_c6_counterexample :
    pyDictGet [("content", Json.str "x"), ("score", Json.null)] "score" = some Json.null
    ∧ Server._section_lines 1 [("content", Json.str "x"), ("score", Json.null)] = ["1. x"]
    ∧ Server._format_documents [Json.obj [("content", Json.str "x"), ("score", Json.null)]]
        = "1. x" :=
  ⟨rfl, by decide, by decide⟩

/-- C6 (amended): a dict item's block carries a `score:` line — rendering
the field's value as-is by its Python string representation — exactly when
the mapping's `score` field holds a non-null value; a `score` field holding
null (indistinguishable in Python from an absent field) yields no line. -/
theorem claim_c6_amended (index : Nat) (d : List (String × Json)) :
    (∃ rest, Server._section_lines index d
        = Server._content_line index d
          :: ("   score: " ++ pyStr (pyGetOrNull d "score")) :: rest)
    ↔ (pyGetOrNull d "score").isNull = false := by
  unfold Server._section_lines
  dsimp only
  cases hs : (pyGetOrNull d "score").isNull with
  | false =>
      simp only [hs, Bool.not_false, if_true]
      constructor
      · intro _; trivial
      · intro _
        split
        · exact ⟨["   metadata: " ++ jsonDumps (pyOr (pyGetOrNull d "metadata") (Json.obj []))],
            by simp⟩
        · exact ⟨[], by simp⟩
  | true =>
      have hnull : pyGetOrNull d "score" = Json.null := by
        cases h2 : pyGetOrNull d "score" <;> first | rfl | (rw [h2] at hs; cases hs)
      simp only [hs, Bool.not_true, if_false]
      constructor
      · rintro ⟨rest, hrest⟩
        rw [hnull] at hrest
        have hsc : ("   score: " ++ pyStr Json.null) = "   score: None" := rfl
        rw [hsc] at hrest
        split at hrest
        · rw [List.singleton_append] at hrest
          injection hrest with h1 h2
          injection h2 with h3 h4
          exact absurd h3.symm
            (ne_append_of_get "   score: None" "   metadata: " _ 3 (by decide) (by decide))
        · simp at hrest
      · intro hfalse
        exact absurd hfalse (by decide)

/-- C7: for every query that is empty or whitespace-only and every dataset
identifier, `_query_dataset` raises the `ValueError` "Query text must not
be empty." and performs no effect at all: no HTTP request is built or
issued and the Normalizer is not reached. -/
theorem claim_c7 (query : String) (h : query = "" ∨ pyStrip query = "")
    (data_id : String) (env_token : Option String) (net : String → HttpResponse) :
    Server._query_dataset query data_id env_token net
      = (Except.error (QueryError.valueError "Query text must not be empty."), []) := by
  have hc : (query.isEmpty || (pyStrip query).isEmpty) = true := by
    rcases h with h | h
    · simp [String.isEmpty_iff, h]
    · simp [String.isEmpty_iff, h]
  simp only [Server._query_dataset, hc]
  rfl

/-- Witness for C7 on the whitespace-only query "   ". -/
theorem claim_c7_witness :
    ("   " = "" ∨ pyStrip "   " = "")
    ∧ Server._query_dataset "   " "dataset-1" none
        (fun _ => HttpResponse.mk 200 [])
      = (Except.error (QueryError.valueError "Query text must not be empty."), []) :=
  ⟨Or.inr (by decide),
    claim_c7 "   " (Or.inr (by decide)) "dataset-1" none (fun _ => HttpResponse.mk 200 [])⟩

/-- C8: for every valid query and resolvable credential, when the upstream
response status indicates failure (4xx/5xx, e.g. 500), `_query_dataset`
raises the HTTP status error carrying that status after exactly one POST:
the Normalizer is never invoked on the response body and no second request
is attempted. -/
theorem claim_c8 (query data_id : String) (env_token : Option String)
    (net : String → HttpResponse)
    (hq : ¬(query = "" ∨ pyStrip query = ""))
    (ht : env_token.getD Server._DEFAULT_DATASET_TOKEN ≠ "")
    (hs : 400 ≤ (net (Server._DATASET_URL data_id)).status
          ∧ (net (Server._DATASET_URL data_id)).status ≤ 599) :
    Server._query_dataset query data_id env_token net
      = (Except.error
           (QueryError.httpStatusError (net (Server._DATASET_URL data_id)).status),
         [Effect.httpPost (Server._DATASET_URL data_id) query]) := by
  have h1 : ¬query = "" := fun hh => hq (Or.inl hh)
  have h2 : ¬pyStrip query = "" := fun hh => hq (Or.inr hh)
  have hc : (query.isEmpty || (pyStrip query).isEmpty) = false := by
    rw [Bool.or_eq_false_iff]
    constructor
    · rw [Bool.eq_false_iff]
      intro hh
      exact h1 ((String.isEmpty_iff query).mp hh)
    · rw [Bool.eq_false_iff]
      intro hh
      exact h2 ((String.isEmpty_iff (pyStrip query)).mp hh)
  have hb : Server._build_headers env_token
      = Except.ok
          [("Authorization", "Bearer " ++ env_token.getD Server._DEFAULT_DATASET_TOKEN),
           ("Content-Type", "application/json")] := by
    unfold Server._build_headers
    rw [if_neg ht]
  simp only [Server._query_dataset, hc, Bool.false_eq_true, if_false, hb]
  rw [if_pos hs]

/-- Witness for C8: a valid query against a server returning status 500. -/
theorem claim_c8_witness :
    (¬("hi" = "" ∨ pyStrip "hi" = ""))
    ∧ ((none : Option String).getD Server._DEFAULT_DATASET_TOKEN ≠ "")
    ∧ (400 ≤ ((fun _ => HttpResponse.mk 500 []) (Server._DATASET_URL "dataset-1")).status
        ∧ ((fun _ => HttpResponse.mk 500 []) (Server._DATASET_URL "dataset-1")).status ≤ 599)
    ∧ Server._query_dataset "hi" "dataset-1" none (fun _ => HttpResponse.mk 500 [])
        = (Except.error
             (QueryError.httpStatusError
               ((fun _ => HttpResponse.mk 500 []) (Server._DATASET_URL "dataset-1")).status),
           [Effect.httpPost (Server._DATASET_URL "dataset-1") "hi"]) :=
  ⟨by decide, by decide, by decide,
    claim_c8 "hi" "dataset-1" none (fun _ => HttpResponse.mk 500 [])
      (by decide) (by decide) (by decide)⟩

/-- The per-item renderers of the two variants agree. -/
lemma variants_document_eq (i : Nat) (item : Json) :
    Server._format_document i item = BuildLibServer._format_document i item := by
  cases item <;> rfl

/-- The parts lists of the two variants agree. -/
lemma variants_parts_eq (items : List Json) :
    ∀ i, Server._format_documents_parts i items = BuildLibServer._format_documents_parts i items := by
  induction items with
  | nil => intro i; rfl
  | cons x xs ih =>
      intro i
      simp only [Server._format_documents_parts, BuildLibServer._format_documents_parts,
        variants_document_eq, ih]

/-- The document formatters of the two variants agree. -/
lemma variants_documents_eq (items : List Json) :
    Server._format_documents items = BuildLibServer._format_documents items := by
  unfold Server._format_documents BuildLibServer._format_documents
  rw [variants_parts_eq]

/-- The payload key loops of the two variants agree. -/
lemma variants_payload_go_eq (payload : List (String × Json)) (ks : List String) :
    Server._format_payload_go payload ks = BuildLibServer._format_payload_go payload ks := by
  induction ks with
  | nil => rfl
  | cons k ks ih =>
      simp only [Server._format_payload_go, BuildLibServer._format_payload_go]
      cases pyDictGet payload k with
      | none => exact ih
      | some v =>
          cases v with
          | arr l => simp only [variants_documents_eq, ih]
          | null => exact ih
          | bool b => exact ih
          | num s => exact ih
          | str s => exact ih
          | obj d => exact ih

/-- The payload normalizers of the two variants agree. -/
lemma variants_payload_eq (payload : List (String × Json)) :
    Server._format_payload payload = BuildLibServer._format_payload payload :=
  variants_payload_go_eq payload ["items", "data", "documents", "results"]

/-- The dataset query functions of the two variants agree. -/
lemma variants_query_eq (query data_id : String) (env_token : Option String)
    (net : String → HttpResponse) :
    Server._query_dataset query data_id env_token net
      = BuildLibServer._query_dataset query data_id env_token net := by
  have hh : Server._build_headers env_token = BuildLibServer._build_headers env_token := rfl
  have hu : Server._DATASET_URL = BuildLibServer._DATASET_URL := rfl
  simp only [Server._query_dataset, BuildLibServer._query_dataset, variants_payload_eq, hh, hu]

/-- C9: the four core functions of the two server variants are
extensionally equal on every input. -/
theorem claim_c9 :
    (∀ env_token, Server._build_headers env_token = BuildLibServer._build_headers env_token)
    ∧ (∀ items, Server._format_documents items = BuildLibServer._format_documents items)
    ∧ (∀ payload, Server._format_payload payload = BuildLibServer._format_payload payload)
    ∧ ∀ query data_id env_token net,
        Server._query_dataset query data_id env_token net
          = BuildLibServer._query_dataset query data_id env_token net :=
  ⟨fun _ => rfl, variants_documents_eq, variants_payload_eq, variants_query_eq⟩

/-- C10: the formatted text of a non-empty item list always begins with
"1. " and never strips to the empty string, so the whitespace guard in
`_format_payload` always accepts a non-empty selected list and the
fall-through past such a list (to later-priority fields or to the raw-JSON
fallback) is unreachable: the payload's output is the formatted list
itself. -/
theorem claim_c10 (items : List Json) (h : items ≠ []) :
    (∃ t, Server._format_documents items = "1. " ++ t)
    ∧ pyStrip (Server._format_documents items) ≠ ""
    ∧ ∀ payload : List (String × Json), selectedList payload = some items →
        Server._format_payload payload = Server._format_documents items := by
  refine ⟨format_documents_starts items h, format_documents_strip_ne items h, ?_⟩
  intro payload hp
  rw [format_payload_eq, hp]
  have hemp : items.isEmpty = false := by
    cases items with
    | nil => cases h rfl
    | cons a l => rfl
  simp only [hemp, Bool.false_eq_true, if_false]

/-- Witness for C10 on a one-element list whose item is an empty dict. -/
theorem claim_c10_witness :
    (([Json.obj []] : List Json) ≠ [])
    ∧ ((∃ t, Server._format_documents [Json.obj []] = "1. " ++ t)
      ∧ pyStrip (Server._format_documents [Json.obj []]) ≠ ""
      ∧ ∀ payload : List (String × Json), selectedList payload = some [Json.obj []] →
          Server._format_payload payload = Server._format_documents [Json.obj []]) :=
  ⟨List.cons_ne_nil _ _, claim_c10 [Json.obj []] (List.cons_ne_nil _ _)⟩
